import Mathlib

/-!
Verification of `src/physics/matter-js/World.js` (Phaser Matter World):
a shallow embedding of the gravity setters, the timestep driver, the
collision-event bridge, the collision-id allocator, the boundary walls
and the debug renderer, with theorems checking the specification's
claims against the embedded code.

Machine numbers are modelled as `ℚ` (the JS values involved are exact
decimal/rational arithmetic in every claim considered); colors are `ℕ`;
JS `null`/`undefined` is `Option`.
-/

namespace MatterWorld

/-! ### Gravity (`setGravity`, `disableGravity`) -/

/-- The `localWorld.gravity` record. -/
structure Gravity where
  x : ℚ
  y : ℚ
  scale : ℚ
  deriving Repr, DecidableEq

/-- `setGravity(x, y, scale)` (World.js lines 487-501): defaults `x=0`,
`y=1` when `undefined`; always writes `gravity.x` and `gravity.y`;
writes `gravity.scale` only when `scale !== undefined`. -/
def setGravity (g : Gravity) (x y scale : Option ℚ) : Gravity :=
  let x := x.getD 0
  let y := y.getD 1
  { x := x
    y := y
    scale := match scale with
      | some s => s
      | none => g.scale }

/-- `disableGravity()` (World.js lines 466-473): sets `gravity.x`,
`gravity.y` and `gravity.scale` all to 0. -/
def disableGravity (_g : Gravity) : Gravity :=
  { x := 0, y := 0, scale := 0 }

/-! ### Collision-id allocator (`resetCollisionIDs`, `nextGroup`, `nextCategory`) -/

/-- The process-wide `Body._nextCollidingGroupId` /
`Body._nextNonCollidingGroupId` / `Body._nextCategory` counters. -/
structure AllocState where
  nextCollidingGroupId : ℤ
  nextNonCollidingGroupId : ℤ
  nextCategory : ℕ
  deriving Repr, DecidableEq

/-- `resetCollisionIDs()` (World.js lines 1238-1245): assigns
`Body._nextCollidingGroupId = 1`, `Body._nextNonCollidingGroupId = -1`,
`Body._nextCategory = 0x0001`. -/
def resetCollisionIDs (_s : AllocState) : AllocState :=
  { nextCollidingGroupId := 1
    nextNonCollidingGroupId := -1
    nextCategory := 0x0001 }

/-- Modelled from the spec: `Body.nextGroup` lives in
`lib/body/Body.js`, which is not part of the provided sources. Per the
spec, `nextGroup(isNonColliding)` returns and advances the colliding
counter (post-increment from 1) when false, or the non-colliding
counter (post-decrement from −1) when true. -/
def nextGroup (isNonColliding : Bool) (s : AllocState) : ℤ × AllocState :=
  if isNonColliding then
    (s.nextNonCollidingGroupId,
      { s with nextNonCollidingGroupId := s.nextNonCollidingGroupId - 1 })
  else
    (s.nextCollidingGroupId,
      { s with nextCollidingGroupId := s.nextCollidingGroupId + 1 })

/-- Modelled from the spec: `Body.nextCategory` lives in
`lib/body/Body.js`, which is not part of the provided sources. Per the
spec, `nextCategory()` returns the current category counter then
left-shifts it by one bit. -/
def nextCategory (s : AllocState) : ℕ × AllocState :=
  (s.nextCategory, { s with nextCategory := s.nextCategory <<< 1 })

/-! ### Timestep driver (`update`, `step`) -/

/-- One invocation of `Engine.update(engine, delta, correction)`; the
arguments are `Option` because `step` may forward `undefined`. -/
structure StepCall where
  delta : Option ℚ
  correction : Option ℚ

/-- The World fields that the timestep driver reads. -/
structure TimeState where
  enabled : Bool
  autoUpdate : Bool
  correction : ℚ
  getDelta : ℚ → ℚ → ℚ

/-- `update(time, delta)` (World.js lines 704-710): invokes
`Engine.update(engine, getDelta(time, delta), correction)` iff
`enabled && autoUpdate`. The returned list is the sequence of engine
steps the call performs. -/
def update (w : TimeState) (time delta : ℚ) : List StepCall :=
  if w.enabled && w.autoUpdate then
    [⟨some (w.getDelta time delta), some w.correction⟩]
  else
    []

/-- `step(delta, correction)` (World.js lines 739-742): unconditionally
invokes `Engine.update(engine, delta, correction)` with the given
arguments (possibly `undefined`). -/
def step (_w : TimeState) (delta correction : Option ℚ) : List StepCall :=
  [⟨delta, correction⟩]

/-! ### Boundary walls (`setBounds`, `updateWall`, `create`) -/

/-- The fields of a wall body that `updateWall`'s call to `create`
determines: `Bodies.rectangle(x, y, width, height, options)` with
options `{ isStatic: true, friction: 0, frictionStatic: 0 }`. -/
structure WallBody where
  x : ℚ
  y : ℚ
  width : ℚ
  height : ℚ
  isStatic : Bool
  friction : ℚ
  frictionStatic : ℚ
  deriving Repr, DecidableEq

/-- A wall slot name. -/
inductive Side where
  | left
  | right
  | top
  | bottom
  deriving Repr, DecidableEq

/-- The `walls` record (World.js line 87): one optional body per side,
all `null` initially. -/
structure Walls where
  left : Option WallBody
  right : Option WallBody
  top : Option WallBody
  bottom : Option WallBody
  deriving Repr, DecidableEq

/-- Read the wall slot of a side. -/
def Walls.get (w : Walls) : Side → Option WallBody
  | Side.left => w.left
  | Side.right => w.right
  | Side.top => w.top
  | Side.bottom => w.bottom

/-- Write the wall slot of a side. -/
def Walls.set (w : Walls) : Side → Option WallBody → Walls
  | Side.left, v => { w with left := v }
  | Side.right, v => { w with right := v }
  | Side.top, v => { w with top := v }
  | Side.bottom, v => { w with bottom := v }

/-- The initial `walls` value: `{ left: null, right: null, top: null,
bottom: null }`. -/
def initialWalls : Walls :=
  { left := none, right := none, top := none, bottom := none }

/-- Add/remove operations performed on the underlying engine composite
while updating walls. -/
inductive WorldOp where
  | addBody (b : WallBody)
  | removeBody (b : WallBody)
  deriving Repr, DecidableEq

/-- `create(x, y, width, height, options)` (World.js lines 515-523),
specialised to the options `updateWall` passes: builds the rectangle
body and adds it to the world. -/
def create (x y width height : ℚ) : WallBody × List WorldOp :=
  let body : WallBody :=
    { x := x, y := y, width := width, height := height,
      isStatic := true, friction := 0, frictionStatic := 0 }
  (body, [WorldOp.addBody body])

/-- `updateWall(add, position, x, y, width, height)` (World.js lines
409-435): when `add` is true, remove any existing wall, shift `x`/`y`
to the rectangle's centre, create the new static zero-friction body and
store it; when `add` is false, remove any existing wall and clear the
slot. Returns the new `walls` record and the engine operations
performed. -/
def updateWall (walls : Walls) (add : Bool) (position : Side)
    (x y width height : ℚ) : Walls × List WorldOp :=
  let wall := walls.get position
  if add then
    let removeOps := match wall with
      | some w => [WorldOp.removeBody w]
      | none => []
    let x := x + width / 2
    let y := y + height / 2
    let (body, addOps) := create x y width height
    (walls.set position (some body), removeOps ++ addOps)
  else
    match wall with
    | some w => (walls.set position none, [WorldOp.removeBody w])
    | none => (walls.set position none, [])

/-- `setBounds(x, y, width, height, thickness, left, right, top,
bottom)` (World.js lines 375-393). `sceneWidth`/`sceneHeight` stand for
`scene.sys.scale.width/height`, the defaults for omitted dimensions;
every omitted argument is an `Option` set to `none`. The four sides are
updated left, right, top, bottom in order. -/
def setBounds (sceneWidth sceneHeight : ℚ) (walls : Walls)
    (x y width height thickness : Option ℚ)
    (left right top bottom : Option Bool) : Walls × List WorldOp :=
  let x := x.getD 0
  let y := y.getD 0
  let width := width.getD sceneWidth
  let height := height.getD sceneHeight
  let thickness := thickness.getD 128
  let left := left.getD true
  let right := right.getD true
  let top := top.getD true
  let bottom := bottom.getD true
  let r1 :=
    updateWall walls left Side.left (x - thickness) (y - thickness)
      thickness (height + thickness * 2)
  let r2 :=
    updateWall r1.1 right Side.right (x + width) (y - thickness)
      thickness (height + thickness * 2)
  let r3 :=
    updateWall r2.1 top Side.top x (y - thickness) width thickness
  let r4 :=
    updateWall r3.1 bottom Side.bottom x (y + height) width thickness
  (r4.1, r1.2 ++ r2.2 ++ r3.2 ++ r4.2)

/-- A boundary-affecting call: either a public `setBounds` call (every
argument optional) or a direct `updateWall` call. -/
inductive BoundsCall where
  | setB (x y width height thickness : Option ℚ)
      (left right top bottom : Option Bool)
  | upd (add : Bool) (position : Side) (x y width height : ℚ)

/-- Apply one boundary call to a `walls` record (engine ops
discarded). -/
def applyBoundsCall (sceneWidth sceneHeight : ℚ) (walls : Walls) :
    BoundsCall → Walls
  | BoundsCall.setB x y width height thickness left right top bottom =>
    (setBounds sceneWidth sceneHeight walls x y width height thickness
      left right top bottom).1
  | BoundsCall.upd add position x y width height =>
    (updateWall walls add position x y width height).1

/-- Run a sequence of boundary calls from a starting `walls` record. -/
def runBoundsCalls (sceneWidth sceneHeight : ℚ) (walls : Walls) :
    List BoundsCall → Walls
  | [] => walls
  | c :: cs =>
    runBoundsCalls sceneWidth sceneHeight
      (applyBoundsCall sceneWidth sceneHeight walls c) cs

/-- Whether a call updates the given side, and with which inclusion
flag: `setBounds` updates every side (omitted flags default to true);
`updateWall` updates only its own side. -/
def callIncludes (side : Side) : BoundsCall → Option Bool
  | BoundsCall.setB _ _ _ _ _ left right top bottom =>
    match side with
    | Side.left => some (left.getD true)
    | Side.right => some (right.getD true)
    | Side.top => some (top.getD true)
    | Side.bottom => some (bottom.getD true)
  | BoundsCall.upd add position _ _ _ _ =>
    if position = side then some add else none

/-- The inclusion flag of the most recent call in the sequence that
updated the given side (`none` when no call did). -/
def lastIncludes (side : Side) : List BoundsCall → Option Bool
  | [] => none
  | c :: cs =>
    match lastIncludes side cs with
    | some b => some b
    | none => callIncludes side c

/-! ### Event bridge (`setEventsProxy`) -/

/-- A matter collision pair as far as the bridge reads it: the two
body references, abstracted to an arbitrary type `B`. -/
structure CollisionPair (B : Type) where
  bodyA : B
  bodyB : B

/-- The raw engine collision event: its `pairs` list. -/
structure CollisionEventData (B : Type) where
  pairs : List (CollisionPair B)

/-- The normalized event the World re-emits: the raw event is passed
through and `bodyA`/`bodyB` are extracted (or left `undefined`). -/
structure EmittedCollision (B : Type) where
  rawEvent : CollisionEventData B
  bodyA : Option B
  bodyB : Option B

/-- The `collisionStart` listener installed by `setEventsProxy`
(World.js lines 306-320): reads `event.pairs`; if non-empty takes
`bodyA`/`bodyB` from `pairs[0]`, else leaves them `undefined`; emits
`(event, bodyA, bodyB)`. -/
def collisionStartListener {B : Type} (event : CollisionEventData B) :
    EmittedCollision B :=
  let pairs := event.pairs
  match pairs with
  | [] => { rawEvent := event, bodyA := none, bodyB := none }
  | p :: _ => { rawEvent := event, bodyA := some p.bodyA, bodyB := some p.bodyB }

/-- The `collisionActive` listener installed by `setEventsProxy`
(World.js lines 322-334), identical in shape to the `collisionStart`
one. -/
def collisionActiveListener {B : Type} (event : CollisionEventData B) :
    EmittedCollision B :=
  let pairs := event.pairs
  match pairs with
  | [] => { rawEvent := event, bodyA := none, bodyB := none }
  | p :: _ => { rawEvent := event, bodyA := some p.bodyA, bodyB := some p.bodyB }

/-- The `collisionEnd` listener installed by `setEventsProxy`
(World.js lines 336-348), identical in shape to the `collisionStart`
one. -/
def collisionEndListener {B : Type} (event : CollisionEventData B) :
    EmittedCollision B :=
  let pairs := event.pairs
  match pairs with
  | [] => { rawEvent := event, bodyA := none, bodyB := none }
  | p :: _ => { rawEvent := event, bodyA := some p.bodyA, bodyB := some p.bodyB }

/-! ### Debug renderer data model -/

/-- A polygon vertex, with the matter `isInternal` flag. -/
structure Vertex where
  x : ℚ
  y : ℚ
  isInternal : Bool
  deriving Repr, DecidableEq

/-- The fallback vertex used to model out-of-range JS indexing; the
theorems only evaluate the lists inside their bounds. -/
def dummyVertex : Vertex := { x := 0, y := 0, isInternal := false }

/-- The `render` sub-record of a body or part, as far as the debug
renderer reads it. -/
structure RenderInfo where
  visible : Bool
  opacity : ℚ
  deriving Repr, DecidableEq

/-- A body part: a circle when `circleRadius` is set non-zero,
otherwise a polygon over `vertices`. -/
structure Part where
  render : RenderInfo
  circleRadius : Option ℚ
  position : ℚ × ℚ
  vertices : List Vertex
  deriving Repr, DecidableEq

/-- A matter body as the debug renderer reads it. In matter a body is
its own first part (`parts[0]`), so for faithful instances
`parts.head` repeats the body's own fields. -/
structure MBody where
  render : RenderInfo
  isStatic : Bool
  isSleeping : Bool
  parts : List Part
  vertices : List Vertex
  deriving Repr, DecidableEq

/-- The debug-config fields that body/hull rendering reads. -/
structure DebugConfig where
  showBody : Bool
  showStaticBody : Bool
  showSleeping : Bool
  showInternalEdges : Bool
  showConvexHulls : Bool
  renderFill : Bool
  renderStroke : Bool
  lineThickness : ℚ
  fillColor : ℕ
  strokeColor : ℕ
  staticFillColor : ℕ
  staticStrokeColor : ℕ
  staticBodySleepOpacity : ℚ
  sleepFillColor : ℕ
  sleepStrokeColor : ℕ
  hullColor : ℕ
  deriving Repr, DecidableEq

/-- A primitive operation on the debug `Graphics` object. -/
inductive DrawOp where
  | beginPath
  | closePath
  | fillPath
  | strokePath
  | moveTo (x y : ℚ)
  | lineTo (x y : ℚ)
  | arc (x y radius : ℚ)
  | setFillStyle (color : ℕ) (alpha : ℚ)
  | setLineStyle (width : ℚ) (color : ℕ) (alpha : ℚ)
  | strokeCircle (x y radius : ℚ)
  | fillCircle (x y radius : ℚ)
  deriving Repr, DecidableEq

/-! ### `renderBody`: polygon path emission -/

/-- The body of the vertex loop of `renderBody` (World.js lines
963-981) at index `j ≥ 1`: emit a line to vertex `j` unless vertex
`j-1` is internal and internal edges are hidden (then move instead);
and when vertex `j` itself is internal and internal edges are hidden,
additionally move forward to vertex `(j+1) % vertLength`. -/
def vertexStepOps (showInternalEdges : Bool) (vertices : List Vertex)
    (j : ℕ) : List DrawOp :=
  let vert := vertices.getD j dummyVertex
  (if !(vertices.getD (j - 1) dummyVertex).isInternal || showInternalEdges then
    [DrawOp.lineTo vert.x vert.y]
  else
    [DrawOp.moveTo vert.x vert.y]) ++
  (if vert.isInternal && !showInternalEdges then
    let next := vertices.getD ((j + 1) % vertices.length) dummyVertex
    [DrawOp.moveTo next.x next.y]
  else
    [])

/-- The polygon path `renderBody` emits for a part (World.js lines
958-986): begin, move to vertex 0, run the vertex loop for
`j = 1 .. vertLength-1`, close. -/
def polygonPathOps (showInternalEdges : Bool) (vertices : List Vertex) :
    List DrawOp :=
  let v0 := vertices.getD 0 dummyVertex
  DrawOp.beginPath :: DrawOp.moveTo v0.x v0.y ::
    ((List.range' 1 (vertices.length - 1)).flatMap
      (vertexStepOps showInternalEdges vertices) ++ [DrawOp.closePath])

/-- The per-part body of `renderBody`'s parts loop (World.js lines
925-1000): resolve the part opacity (`usePartOpacity` mirrors JS
`!opacity`, true for `null` and for `0`); skip invisible or fully
transparent parts; emit an arc for circles (JS truthiness: a zero
`circleRadius` falls through to the polygon branch) or the polygon
path otherwise; then fill and stroke with the resolved styles. -/
def renderBodyPartOps (showInternalEdges : Bool)
    (lineColor fillColor : Option ℕ) (opacity : Option ℚ)
    (lineThickness : ℚ) (part : Part) : List DrawOp :=
  let usePartOpacity := opacity = none ∨ opacity = some 0
  let opacity := if usePartOpacity then part.render.opacity else opacity.getD 0
  if !part.render.visible || opacity = 0 then
    []
  else
    (if part.circleRadius.getD 0 ≠ 0 then
      [DrawOp.beginPath,
        DrawOp.arc part.position.1 part.position.2 (part.circleRadius.getD 0)]
    else
      polygonPathOps showInternalEdges part.vertices) ++
    (match fillColor with
      | some c => [DrawOp.setFillStyle c opacity, DrawOp.fillPath]
      | none => []) ++
    (match lineColor with
      | some c => [DrawOp.setLineStyle lineThickness c opacity, DrawOp.strokePath]
      | none => [])

/-- `renderBody(body, graphics, showInternalEdges, lineColor,
fillColor, opacity, lineThickness)` (World.js lines 916-1003): when the
body is compound (more than one part) skip `parts[0]` and render
`parts[1..]`, otherwise render part 0. -/
def renderBodyOps (body : MBody) (showInternalEdges : Bool)
    (lineColor fillColor : Option ℕ) (opacity : Option ℚ)
    (lineThickness : ℚ) : List DrawOp :=
  let parts := body.parts
  (if parts.length > 1 then parts.drop 1 else parts).flatMap
    (renderBodyPartOps showInternalEdges lineColor fillColor opacity
      lineThickness)

/-- `renderConvexHull(body, graphics, hullColor, lineThickness)`
(World.js lines 1021-1050): only for compound bodies; a closed stroked
polygon through the body's top-level vertices (Phaser's two-argument
`lineStyle` leaves alpha at 1). -/
def renderConvexHullOps (body : MBody) (hullColor : ℕ)
    (lineThickness : ℚ) : List DrawOp :=
  let parts := body.parts
  if parts.length > 1 then
    let verts := body.vertices
    let v0 := verts.getD 0 dummyVertex
    DrawOp.setLineStyle lineThickness hullColor 1 :: DrawOp.beginPath ::
      DrawOp.moveTo v0.x v0.y ::
      ((verts.drop 1).map (fun v => DrawOp.lineTo v.x v.y) ++
        [DrawOp.lineTo v0.x v0.y, DrawOp.strokePath])
  else
    []

/-! ### `renderBodies`: per-body style resolution and dispatch -/

/-- The style-resolution block of `renderBodies`' loop (World.js lines
866-891): start from the default stroke/fill and the body's render
opacity; if sleeping is shown and the body sleeps, a static body keeps
its colors but multiplies opacity by `staticBodySleepOpacity` while a
dynamic body takes the sleep colors; then a static body's colors are
overridden by the static colors; finally the global `renderFill` /
`renderStroke` toggles null out the fill/stroke. Returns
`(lineStyle, fillStyle, opacity)`. -/
def resolveBodyStyle (config : DebugConfig) (body : MBody) :
    Option ℕ × Option ℕ × ℚ :=
  let opacity := body.render.opacity
  let lineStyle := config.strokeColor
  let fillStyle := config.fillColor
  let (lineStyle, fillStyle, opacity) :=
    if config.showSleeping && body.isSleeping then
      if body.isStatic then
        (lineStyle, fillStyle, opacity * config.staticBodySleepOpacity)
      else
        (config.sleepStrokeColor, config.sleepFillColor, opacity)
    else
      (lineStyle, fillStyle, opacity)
  let (lineStyle, fillStyle) :=
    if body.isStatic then
      (config.staticStrokeColor, config.staticFillColor)
    else
      (lineStyle, fillStyle)
  let fillStyle := if !config.renderFill then none else some fillStyle
  let lineStyle := if !config.renderStroke then none else some lineStyle
  (lineStyle, fillStyle, opacity)

/-- The body of `renderBodies`' loop for one body (World.js lines
841-907): skip invisible bodies; skip static bodies when
`showStaticBody` is off and dynamic bodies when `showBody` is off;
resolve the style; render the body; and render its convex hull when
`showConvexHulls` is set and the body is compound. -/
def renderBodiesBodyOps (config : DebugConfig) (body : MBody) :
    List DrawOp :=
  if !body.render.visible then
    []
  else if (!config.showStaticBody && body.isStatic) ||
      (!config.showBody && !body.isStatic) then
    []
  else
    let (lineStyle, fillStyle, opacity) := resolveBodyStyle config body
    renderBodyOps body config.showInternalEdges lineStyle fillStyle
      (some opacity) config.lineThickness ++
    (if config.showConvexHulls && body.parts.length > 1 then
      renderConvexHullOps body config.hullColor config.lineThickness
    else
      [])

/-- `renderBodies(bodies)` (World.js lines 820-908): the loop over all
bodies. -/
def renderBodiesOps (config : DebugConfig) (bodies : List MBody) :
    List DrawOp :=
  bodies.flatMap (renderBodiesBodyOps config)

/-! ### `renderConstraint`: the spring branch -/

/-- Modelled from the spec: `Common.clamp` lives in
`lib/core/Common.js`, which is not part of the provided sources. Per
the spec's formula `clamp(length / 5, 12, 20)`, clamping restricts a
value to the closed interval. -/
def clamp (value lo hi : ℚ) : ℚ :=
  if value < lo then lo
  else if value > hi then hi
  else value

/-- The coil count of the spring branch of `renderConstraint`
(World.js line 1170): `Math.ceil(Common.clamp(constraint.length / 5,
12, 20))`. -/
def springCoils (length : ℚ) : ℤ :=
  ⌈clamp (length / 5) 12 20⌉

/-- The points the spring branch of `renderConstraint` draws lines to
(World.js lines 1161-1185): the zig-zag points for `j = 1 .. coils-1`,
each at progress `j/coils` along `delta = end - start` and offset by
`±4` times `normal`, followed by the end point. `normal` stands for
`Vector.perp(Vector.normalise(delta))`, kept abstract because
normalisation divides by an irrational length in general. -/
def springPathPoints (start stop normal : ℚ × ℚ) (length : ℚ) :
    List (ℚ × ℚ) :=
  let delta := (stop.1 - start.1, stop.2 - start.2)
  let coils := springCoils length
  ((List.range' 1 (coils.toNat - 1)).map (fun (j : ℕ) =>
    let offset : ℚ := if j % 2 = 0 then 1 else -1
    (start.1 + delta.1 * ((j : ℚ) / ((coils : ℤ) : ℚ)) + normal.1 * offset * 4,
     start.2 + delta.2 * ((j : ℚ) / ((coils : ℤ) : ℚ)) + normal.2 * offset * 4)))
  ++ [stop]

/-! ## Theorems -/

/-- C10: `setGravity` with `scale` omitted updates the gravity's `x`
and `y` components (with defaults `x=0`, `y=1` when those too are
omitted) and leaves `gravity.scale` unchanged; `gravity.scale` changes
only when `scale` is supplied; `disableGravity` sets all three of `x`,
`y` and `scale` to 0. -/
theorem setGravity_scale_only_when_supplied (g : Gravity) :
    (∀ x y : Option ℚ, setGravity g x y none =
      { x := x.getD 0, y := y.getD 1, scale := g.scale }) ∧
    (∀ x y : Option ℚ, ∀ s : ℚ, (setGravity g x y (some s)).scale = s) ∧
    disableGravity g = { x := 0, y := 0, scale := 0 } :=
  ⟨fun _ _ => rfl, fun _ _ _ => rfl, rfl⟩

/-- C9: from any allocator state, `resetCollisionIDs` restores the
three counters so that the next `nextGroup(false)` returns 1, the next
`nextGroup(true)` returns −1 and the next `nextCategory()` returns
`0x0001`; the state after reset does not depend on the prior state, so
this holds for every World sharing the process-wide allocator. -/
theorem resetCollisionIDs_restores_counters (s t : AllocState) :
    (nextGroup false (resetCollisionIDs s)).1 = 1 ∧
    (nextGroup true (resetCollisionIDs s)).1 = -1 ∧
    (nextCategory (resetCollisionIDs s)).1 = 0x0001 ∧
    resetCollisionIDs s = resetCollisionIDs t :=
  ⟨rfl, rfl, rfl, rfl⟩

/-- C7: `update(time, delta)` invokes the engine step iff
`enabled && autoUpdate`, and then passes `getDelta(time, delta)` and
the configured `correction`; `step(delta, correction)` invokes the
engine step unconditionally with exactly its own arguments, ignoring
`enabled`, `autoUpdate` and `getDelta`. -/
theorem update_gated_step_unconditional (w : TimeState) (time delta : ℚ) :
    (w.enabled = true ∧ w.autoUpdate = true →
      update w time delta = [⟨some (w.getDelta time delta), some w.correction⟩]) ∧
    (¬(w.enabled = true ∧ w.autoUpdate = true) → update w time delta = []) ∧
    (∀ d c : Option ℚ, step w d c = [⟨d, c⟩]) := by
  refine ⟨fun h => ?_, fun h => ?_, fun _ _ => rfl⟩
  · simp [update, h.1, h.2]
  · cases he : w.enabled with
    | false => simp [update, he]
    | true =>
      cases ha : w.autoUpdate with
      | false => simp [update, ha]
      | true => exact absurd ⟨he, ha⟩ h

/-- Witness for C7 at a concrete state: an enabled auto-updating world
steps with the computed delta and correction, a disabled one does not,
and `step` always emits its arguments. -/
theorem update_gated_step_unconditional_w :
    update ⟨true, true, 1, fun _ d => d⟩ 5 7 = [⟨some 7, some 1⟩] ∧
    update ⟨false, true, 1, fun _ d => d⟩ 5 7 = [] ∧
    step ⟨false, true, 1, fun _ d => d⟩ (some 3) none = [⟨some 3, none⟩] :=
  ⟨(update_gated_step_unconditional ⟨true, true, 1, fun _ d => d⟩ 5 7).1
      ⟨rfl, rfl⟩,
    (update_gated_step_unconditional ⟨false, true, 1, fun _ d => d⟩ 5 7).2.1
      (fun h => Bool.false_ne_true h.1),
    (update_gated_step_unconditional ⟨false, true, 1, fun _ d => d⟩ 5 7).2.2
      (some 3) none⟩

/-- C8: each of the three collision listeners passes the raw event
object through and extracts `bodyA`/`bodyB` from the first element of
the event's pair list, leaving both `undefined` when the pair list is
empty. -/
theorem collision_listeners_extract_first_pair {B : Type}
    (ev : CollisionEventData B) :
    ((collisionStartListener ev).rawEvent = ev ∧
      (collisionActiveListener ev).rawEvent = ev ∧
      (collisionEndListener ev).rawEvent = ev) ∧
    (ev.pairs = [] →
      collisionStartListener ev = { rawEvent := ev, bodyA := none, bodyB := none } ∧
      collisionActiveListener ev = { rawEvent := ev, bodyA := none, bodyB := none } ∧
      collisionEndListener ev = { rawEvent := ev, bodyA := none, bodyB := none }) ∧
    (∀ p ps, ev.pairs = p :: ps →
      collisionStartListener ev =
        { rawEvent := ev, bodyA := some p.bodyA, bodyB := some p.bodyB } ∧
      collisionActiveListener ev =
        { rawEvent := ev, bodyA := some p.bodyA, bodyB := some p.bodyB } ∧
      collisionEndListener ev =
        { rawEvent := ev, bodyA := some p.bodyA, bodyB := some p.bodyB }) := by
  obtain ⟨pairs⟩ := ev
  cases pairs with
  | nil =>
    simp [collisionStartListener, collisionActiveListener,
      collisionEndListener]
  | cons p ps =>
    simp [collisionStartListener, collisionActiveListener,
      collisionEndListener]

/-- Witness for C8 at concrete events: a one-pair event yields the
pair's bodies, an empty event yields `undefined` bodies. -/
theorem collision_listeners_extract_first_pair_w :
    collisionStartListener (B := ℕ) ⟨[⟨1, 2⟩]⟩ =
      { rawEvent := ⟨[⟨1, 2⟩]⟩, bodyA := some 1, bodyB := some 2 } ∧
    collisionEndListener (B := ℕ) ⟨[]⟩ =
      { rawEvent := ⟨[]⟩, bodyA := none, bodyB := none } :=
  ⟨((collision_listeners_extract_first_pair (B := ℕ) ⟨[⟨1, 2⟩]⟩).2.2
      ⟨1, 2⟩ [] rfl).1,
    ((collision_listeners_extract_first_pair (B := ℕ) ⟨[]⟩).2.1 rfl).2.2⟩

/-- C5: `setBounds(0,0,800,600)` with the defaults (thickness 128, all
sides true) creates exactly the four static zero-friction walls at
their centred rectangles; a subsequent call with `left=false` removes
the left wall and clears its slot while the other three walls are
removed and re-created (never resized in place); and omitting all four
side flags is the same as passing true for each, on every call. -/
theorem setBounds_four_walls (sw sh : ℚ) :
    setBounds sw sh initialWalls (some 0) (some 0) (some 800) (some 600)
        none none none none none =
      ({ left := some ⟨-64, 300, 128, 856, true, 0, 0⟩,
          right := some ⟨864, 300, 128, 856, true, 0, 0⟩,
          top := some ⟨400, -64, 800, 128, true, 0, 0⟩,
          bottom := some ⟨400, 664, 800, 128, true, 0, 0⟩ },
        [WorldOp.addBody ⟨-64, 300, 128, 856, true, 0, 0⟩,
          WorldOp.addBody ⟨864, 300, 128, 856, true, 0, 0⟩,
          WorldOp.addBody ⟨400, -64, 800, 128, true, 0, 0⟩,
          WorldOp.addBody ⟨400, 664, 800, 128, true, 0, 0⟩]) ∧
    setBounds sw sh
        { left := some ⟨-64, 300, 128, 856, true, 0, 0⟩,
          right := some ⟨864, 300, 128, 856, true, 0, 0⟩,
          top := some ⟨400, -64, 800, 128, true, 0, 0⟩,
          bottom := some ⟨400, 664, 800, 128, true, 0, 0⟩ }
        (some 0) (some 0) (some 800) (some 600) none
        (some false) none none none =
      ({ left := none,
          right := some ⟨864, 300, 128, 856, true, 0, 0⟩,
          top := some ⟨400, -64, 800, 128, true, 0, 0⟩,
          bottom := some ⟨400, 664, 800, 128, true, 0, 0⟩ },
        [WorldOp.removeBody ⟨-64, 300, 128, 856, true, 0, 0⟩,
          WorldOp.removeBody ⟨864, 300, 128, 856, true, 0, 0⟩,
          WorldOp.addBody ⟨864, 300, 128, 856, true, 0, 0⟩,
          WorldOp.removeBody ⟨400, -64, 800, 128, true, 0, 0⟩,
          WorldOp.addBody ⟨400, -64, 800, 128, true, 0, 0⟩,
          WorldOp.removeBody ⟨400, 664, 800, 128, true, 0, 0⟩,
          WorldOp.addBody ⟨400, 664, 800, 128, true, 0, 0⟩]) ∧
    (∀ (walls : Walls) (x y width height thickness : Option ℚ),
      setBounds sw sh walls x y width height thickness none none none none =
        setBounds sw sh walls x y width height thickness
          (some true) (some true) (some true) (some true)) := by
  refine ⟨?_, ?_, fun _ _ _ _ _ _ => rfl⟩ <;>
    norm_num [setBounds, updateWall, create, initialWalls,
      Walls.get, Walls.set]

/-! Helper lemmas for the boundary invariant. -/

/-- Reading back the slot just written. -/
theorem Walls.get_set_same (w : Walls) (s : Side) (v : Option WallBody) :
    (w.set s v).get s = v := by
  cases s <;> rfl

/-- Writing one slot leaves the others unchanged. -/
theorem Walls.get_set_ne (w : Walls) (s t : Side) (v : Option WallBody)
    (h : s ≠ t) : (w.set s v).get t = w.get t := by
  cases s <;> cases t <;> first | rfl | exact absurd rfl h

/-- The wall slot after `updateWall`: the updated side holds the new
centred body when `add` is true and is cleared when `add` is false;
other sides are untouched. -/
theorem updateWall_get (w : Walls) (add : Bool) (pos : Side)
    (x y width height : ℚ) (t : Side) :
    ((updateWall w add pos x y width height).1).get t =
      if pos = t then
        (if add then
          some ⟨x + width / 2, y + height / 2, width, height, true, 0, 0⟩
        else none)
      else w.get t := by
  by_cases hpt : pos = t
  · subst hpt
    cases add with
    | true => simp [updateWall, create, Walls.get_set_same]
    | false =>
      cases hw : w.get pos <;>
        simp [updateWall, hw, Walls.get_set_same]
  · cases add with
    | true => simp [updateWall, create, hpt, Walls.get_set_ne _ _ _ _ hpt]
    | false =>
      cases hw : w.get pos <;>
        simp [updateWall, hw, hpt, Walls.get_set_ne _ _ _ _ hpt]

/-- One boundary call settles a side it updates and preserves a side
it does not. -/
theorem applyBoundsCall_get (sw sh : ℚ) (w : Walls) (c : BoundsCall)
    (side : Side) :
    ((applyBoundsCall sw sh w c).get side ≠ none ↔
      (match callIncludes side c with
        | some b => b = true
        | none => w.get side ≠ none)) := by
  cases c with
  | setB x y width height thickness left right top bottom =>
    cases side <;>
      cases hl : (left.getD true) <;>
      cases hr : (right.getD true) <;>
      cases ht : (top.getD true) <;>
      cases hb : (bottom.getD true) <;>
      simp [applyBoundsCall, setBounds, callIncludes, updateWall_get,
        hl, hr, ht, hb]
  | upd add pos x y width height =>
    by_cases hpt : pos = side
    · subst hpt
      cases add <;>
        simp [applyBoundsCall, callIncludes, updateWall_get]
    · simp [applyBoundsCall, callIncludes, updateWall_get, hpt]

/-- The boundary invariant, generalised over the starting walls. -/
theorem runBoundsCalls_get (sw sh : ℚ) (calls : List BoundsCall)
    (w : Walls) (side : Side) :
    ((runBoundsCalls sw sh w calls).get side ≠ none ↔
      (match lastIncludes side calls with
        | some b => b = true
        | none => w.get side ≠ none)) := by
  induction calls generalizing w with
  | nil => exact Iff.rfl
  | cons c cs ih =>
    show (runBoundsCalls sw sh (applyBoundsCall sw sh w c) cs).get side ≠ none ↔ _
    rw [ih]
    cases hcs : lastIncludes side cs with
    | some b => simp [lastIncludes, hcs]
    | none =>
      simp only [lastIncludes, hcs]
      rw [applyBoundsCall_get]

/-- C6: after any sequence of `setBounds`/`updateWall` calls starting
from the initial all-null walls, a side's wall slot is non-null iff the
most recent call updating that side included it: `updateWall` with
`include=false` always leaves the slot null and with `include=true`
always leaves it holding a body (a `setBounds` call updates every side,
omitted flags defaulting to true). -/
theorem walls_nonnull_iff_included (sw sh : ℚ) (calls : List BoundsCall)
    (side : Side) :
    (runBoundsCalls sw sh initialWalls calls).get side ≠ none ↔
      lastIncludes side calls = some true := by
  rw [runBoundsCalls_get]
  cases h : lastIncludes side calls with
  | some b => cases b <;> simp
  | none => cases side <;> simp [initialWalls, Walls.get]

/-- C1: with `showSleeping` on and the body asleep (and the global
fill/stroke toggles on, so that colors are not nulled out), a dynamic
body's stroke and fill are replaced by the sleep colors with its render
opacity left unmultiplied, while a static body keeps the static colors
(the static-color override wins over the sleep colors) at its render
opacity multiplied by `staticBodySleepOpacity`. -/
theorem sleeping_body_style (config : DebugConfig) (body : MBody)
    (hshow : config.showSleeping = true)
    (hsleep : body.isSleeping = true)
    (hfill : config.renderFill = true)
    (hstroke : config.renderStroke = true) :
    (body.isStatic = false →
      resolveBodyStyle config body =
        (some config.sleepStrokeColor, some config.sleepFillColor,
          body.render.opacity)) ∧
    (body.isStatic = true →
      resolveBodyStyle config body =
        (some config.staticStrokeColor, some config.staticFillColor,
          body.render.opacity * config.staticBodySleepOpacity)) := by
  constructor <;> intro hstatic <;>
    simp [resolveBodyStyle, hshow, hsleep, hfill, hstroke, hstatic]

/-- A debug config for the style witnesses. -/
def sleepConfig : DebugConfig :=
  { showBody := true, showStaticBody := true, showSleeping := true,
    showInternalEdges := false, showConvexHulls := false,
    renderFill := true, renderStroke := true, lineThickness := 1,
    fillColor := 11, strokeColor := 12, staticFillColor := 21,
    staticStrokeColor := 22, staticBodySleepOpacity := 7 / 10,
    sleepFillColor := 31, sleepStrokeColor := 32, hullColor := 41 }

/-- A sleeping dynamic body for the style witness. -/
def sleepingDynamicBody : MBody :=
  { render := { visible := true, opacity := 1 }, isStatic := false,
    isSleeping := true, parts := [], vertices := [] }

/-- A sleeping static body for the style witness. -/
def sleepingStaticBody : MBody :=
  { render := { visible := true, opacity := 1 }, isStatic := true,
    isSleeping := true, parts := [], vertices := [] }

/-- Witness for C1 at concrete inputs: the sleeping dynamic body takes
the sleep colors at its own opacity; the sleeping static body takes
the static colors at opacity times `staticBodySleepOpacity`. -/
theorem sleeping_body_style_w :
    resolveBodyStyle sleepConfig sleepingDynamicBody =
      (some 32, some 31, 1) ∧
    resolveBodyStyle sleepConfig sleepingStaticBody =
      (some 22, some 21, 1 * (7 / 10)) :=
  ⟨(sleeping_body_style sleepConfig sleepingDynamicBody
      rfl rfl rfl rfl).1 rfl,
    (sleeping_body_style sleepConfig sleepingStaticBody
      rfl rfl rfl rfl).2 rfl⟩

/-- C2: in the polygon path, the loop step at vertex `j ≥ 1` draws a
line segment to vertex `j` iff vertex `j-1` is not internal or
`showInternalEdges` is on; otherwise it emits a path break (move) to
vertex `j` instead; whenever vertex `j` is internal and
`showInternalEdges` is off it additionally breaks the path forward to
vertex `(j+1) mod vertexCount`; with `showInternalEdges` on, the step
is exactly the drawn segment. Every step's operations appear in the
emitted polygon path. -/
theorem internal_edge_suppression (showEdges : Bool) (vs : List Vertex)
    (j : ℕ) (h1 : 1 ≤ j) (h2 : j < vs.length) :
    (DrawOp.lineTo (vs.getD j dummyVertex).x (vs.getD j dummyVertex).y ∈
        vertexStepOps showEdges vs j ↔
      ((vs.getD (j - 1) dummyVertex).isInternal = false ∨ showEdges = true)) ∧
    ((vs.getD (j - 1) dummyVertex).isInternal = true ∧ showEdges = false →
      vertexStepOps showEdges vs j =
        DrawOp.moveTo (vs.getD j dummyVertex).x (vs.getD j dummyVertex).y ::
          (if (vs.getD j dummyVertex).isInternal then
            [DrawOp.moveTo (vs.getD ((j + 1) % vs.length) dummyVertex).x
              (vs.getD ((j + 1) % vs.length) dummyVertex).y]
          else [])) ∧
    ((vs.getD j dummyVertex).isInternal = true ∧ showEdges = false →
      DrawOp.moveTo (vs.getD ((j + 1) % vs.length) dummyVertex).x
          (vs.getD ((j + 1) % vs.length) dummyVertex).y ∈
        vertexStepOps showEdges vs j) ∧
    (showEdges = true →
      vertexStepOps showEdges vs j =
        [DrawOp.lineTo (vs.getD j dummyVertex).x (vs.getD j dummyVertex).y]) ∧
    vertexStepOps showEdges vs j ⊆ polygonPathOps showEdges vs := by
  refine ⟨?_, ?_, ?_, ?_, ?_⟩
  · cases hp : (vs.getD (j - 1) dummyVertex).isInternal <;>
      cases showEdges <;>
      cases hv : (vs.getD j dummyVertex).isInternal <;>
      simp_all [vertexStepOps]
  · rintro ⟨hp, hs⟩
    subst hs
    cases hv : (vs.getD j dummyVertex).isInternal <;>
      simp_all [vertexStepOps]
  · rintro ⟨hv, hs⟩
    subst hs
    cases hp : (vs.getD (j - 1) dummyVertex).isInternal <;>
      simp_all [vertexStepOps]
  · intro hs
    subst hs
    cases hv : (vs.getD j dummyVertex).isInternal <;>
      simp_all [vertexStepOps]
  · intro op hop
    have hmem : j ∈ List.range' 1 (vs.length - 1) := by
      rw [List.mem_range'_1]
      omega
    simp only [polygonPathOps, List.mem_cons, List.mem_append]
    exact Or.inr (Or.inr (Or.inl (List.mem_flatMap.mpr ⟨j, hmem, hop⟩)))

/-- Vertices of a compound part whose vertices 1 and 3 are internal. -/
def exVerts : List Vertex :=
  [⟨0, 0, false⟩, ⟨10, 11, true⟩, ⟨20, 21, false⟩, ⟨30, 31, true⟩]

/-- Witness for C2 on a concrete polygon: with internal edges hidden
the step after the internal vertex 1 is a path break; with them shown
it is the drawn segment; and the step at the internal vertex 3 breaks
forward to vertex `4 mod 4 = 0`. -/
theorem internal_edge_suppression_w :
    vertexStepOps false exVerts 2 = [DrawOp.moveTo 20 21] ∧
    vertexStepOps true exVerts 2 = [DrawOp.lineTo 20 21] ∧
    DrawOp.moveTo 0 0 ∈ vertexStepOps false exVerts 3 :=
  ⟨(internal_edge_suppression false exVerts 2 (by decide) (by decide)).2.1
      ⟨rfl, rfl⟩,
    (internal_edge_suppression true exVerts 2 (by decide) (by decide)).2.2.2.1
      rfl,
    (internal_edge_suppression false exVerts 3 (by decide) (by decide)).2.2.1
      ⟨rfl, rfl⟩⟩

/-- C4 counterexample data: a config showing everything relevant. -/
def drawConfig : DebugConfig :=
  { showBody := true, showStaticBody := true, showSleeping := false,
    showInternalEdges := false, showConvexHulls := false,
    renderFill := true, renderStroke := true, lineThickness := 1,
    fillColor := 11, strokeColor := 12, staticFillColor := 21,
    staticStrokeColor := 22, staticBodySleepOpacity := 1,
    sleepFillColor := 31, sleepStrokeColor := 32, hullColor := 41 }

/-- C4 counterexample data: a render-visible dynamic compound body
whose only rendered part (`parts[1]`) is itself render-invisible, so
no draw call is emitted for it even though every body-level check
passes. -/
def hiddenPartsBody : MBody :=
  { render := { visible := true, opacity := 1 }, isStatic := false,
    isSleeping := false,
    parts :=
      [{ render := { visible := true, opacity := 1 }, circleRadius := none,
          position := (0, 0), vertices := [] },
        { render := { visible := false, opacity := 1 }, circleRadius := none,
          position := (0, 0), vertices := [] }],
    vertices := [] }

/-- Counterexample to C4 as stated: the "iff" fails, because a
render-visible dynamic body with `showBody` on can still emit no draw
call at all (its rendered part is invisible). -/
theorem renderBodies_visible_iff_cex :
    ¬(renderBodiesBodyOps drawConfig hiddenPartsBody ≠ [] ↔
      (hiddenPartsBody.render.visible = true ∧
        (hiddenPartsBody.isStatic = true → drawConfig.showStaticBody = true) ∧
        (hiddenPartsBody.isStatic = false → drawConfig.showBody = true))) := by
  intro h
  have hops : renderBodiesBodyOps drawConfig hiddenPartsBody = [] := by
    norm_num [renderBodiesBodyOps, resolveBodyStyle, renderBodyOps,
      renderBodyPartOps, drawConfig, hiddenPartsBody]
  exact h.mpr ⟨rfl, fun hst => absurd hst (by decide), fun _ => rfl⟩ hops

/-- C4 (amended): `renderBodies` emits draw calls for a body only if
the body is render-visible and (when static) `showStaticBody` is on,
respectively (when dynamic) `showBody` is on; in particular a body
whose `render.visible` is false never produces a draw call, regardless
of every other flag. (The converse does not hold: an eligible body may
still emit nothing, e.g. when all its rendered parts are invisible.) -/
theorem renderBodies_draws_only_eligible (config : DebugConfig)
    (body : MBody) :
    (body.render.visible = false → renderBodiesBodyOps config body = []) ∧
    (renderBodiesBodyOps config body ≠ [] →
      body.render.visible = true ∧
      (body.isStatic = true → config.showStaticBody = true) ∧
      (body.isStatic = false → config.showBody = true)) := by
  constructor
  · intro h
    simp [renderBodiesBodyOps, h]
  · intro h
    cases hv : body.render.visible with
    | false => exact absurd (by simp [renderBodiesBodyOps, hv]) h
    | true =>
      refine ⟨rfl, ?_, ?_⟩
      · intro hstat
        cases hs : config.showStaticBody with
        | true => rfl
        | false =>
          exact absurd (by simp [renderBodiesBodyOps, hv, hstat, hs]) h
      · intro hstat
        cases hs : config.showBody with
        | true => rfl
        | false =>
          exact absurd (by simp [renderBodiesBodyOps, hv, hstat, hs]) h

/-- Witness data: a render-invisible body. -/
def invisibleBody : MBody :=
  { render := { visible := false, opacity := 1 }, isStatic := false,
    isSleeping := false,
    parts :=
      [{ render := { visible := true, opacity := 1 },
          circleRadius := some 5, position := (0, 0), vertices := [] }],
    vertices := [] }

/-- Witness data: a render-visible dynamic single-part circle body
that does emit draw calls. -/
def visibleCircleBody : MBody :=
  { render := { visible := true, opacity := 1 }, isStatic := false,
    isSleeping := false,
    parts :=
      [{ render := { visible := true, opacity := 1 },
          circleRadius := some 5, position := (0, 0), vertices := [] }],
    vertices := [] }

/-- Witness for the amended C4 at concrete inputs: the invisible body
emits nothing, and a body that does emit something satisfies all the
eligibility flags. -/
theorem renderBodies_draws_only_eligible_w :
    renderBodiesBodyOps drawConfig invisibleBody = [] ∧
    (visibleCircleBody.render.visible = true ∧
      (visibleCircleBody.isStatic = true → drawConfig.showStaticBody = true) ∧
      (visibleCircleBody.isStatic = false → drawConfig.showBody = true)) :=
  ⟨(renderBodies_draws_only_eligible drawConfig invisibleBody).1 rfl,
    (renderBodies_draws_only_eligible drawConfig visibleCircleBody).2
      (by decide)⟩

/-- The coil count is always at least 12 (the clamp's lower bound). -/
theorem springCoils_twelve_le (length : ℚ) :
    12 ≤ (springCoils length).toNat := by
  have h12 : (12 : ℚ) ≤ clamp (length / 5) 12 20 := by
    unfold clamp
    split_ifs with h1 h2
    · exact le_refl _
    · norm_num
    · linarith [not_lt.mp h1]
  have hc : (12 : ℤ) ≤ springCoils length := by
    calc (12 : ℤ) = ⌈(12 : ℚ)⌉ := by norm_num
    _ ≤ ⌈clamp (length / 5) 12 20⌉ := Int.ceil_le_ceil h12
  omega

/-- C3: the spring branch computes `coils = ceil(clamp(length/5, 12,
20))` — in particular lengths 0, 50, 70, 100, 1000 give 12, 12, 14,
20, 20 coils — and draws exactly `coils` line segments: `coils - 1`
zig-zag points, the point at list index `j` lying at progress
`(j+1)/coils` along the delta and offset by `±4` times the unit
normal (sign alternating with the parity of `j+1`), followed by the
end point. -/
theorem spring_coil_count (length : ℚ) (start stop normal : ℚ × ℚ)
    (j : ℕ) (hj : j < (springCoils length).toNat - 1) :
    (springCoils 0 = 12 ∧ springCoils 50 = 12 ∧ springCoils 70 = 14 ∧
      springCoils 100 = 20 ∧ springCoils 1000 = 20) ∧
    springCoils length = ⌈clamp (length / 5) 12 20⌉ ∧
    (springPathPoints start stop normal length).length =
      (springCoils length).toNat ∧
    (springPathPoints start stop normal length).getD j (0, 0) =
      (start.1 + (stop.1 - start.1) *
          (((j : ℚ) + 1) / ((springCoils length : ℤ) : ℚ)) +
        normal.1 * (if (j + 1) % 2 = 0 then (1 : ℚ) else -1) * 4,
       start.2 + (stop.2 - start.2) *
          (((j : ℚ) + 1) / ((springCoils length : ℤ) : ℚ)) +
        normal.2 * (if (j + 1) % 2 = 0 then (1 : ℚ) else -1) * 4) := by
  have htw := springCoils_twelve_le length
  refine ⟨?_, rfl, ?_, ?_⟩
  · refine ⟨?_, ?_, ?_, ?_, ?_⟩ <;> norm_num [springCoils, clamp]
  · simp only [springPathPoints, List.length_append, List.length_map,
      List.length_range', List.length_cons, List.length_nil]
    omega
  · have hlt : j < (List.range' 1 ((springCoils length).toNat - 1)).length := by
      rw [List.length_range']
      exact hj
    simp only [springPathPoints]
    rw [List.getD_eq_getElem?_getD,
      List.getElem?_append_left (by simpa using hlt),
      List.getElem?_map, List.getElem?_range' _ _ hj]
    simp only [Option.map_some', Option.getD_some]
    have hjj : 1 + 1 * j = j + 1 := by omega
    rw [hjj]
    simp only [Prod.ext_iff]
    constructor <;> push_cast <;> ring_nf

/-- Witness for C3 at concrete inputs: the coil-count examples and the
first zig-zag point of a length-0 spring from `(0,0)` to `(14,0)` with
unit normal `(0,1)`. -/
theorem spring_coil_count_w :
    (springCoils 0 = 12 ∧ springCoils 50 = 12 ∧ springCoils 70 = 14 ∧
      springCoils 100 = 20 ∧ springCoils 1000 = 20) ∧
    springCoils 0 = ⌈clamp (0 / 5) 12 20⌉ ∧
    (springPathPoints (0, 0) (14, 0) (0, 1) 0).length =
      (springCoils 0).toNat ∧
    (springPathPoints (0, 0) (14, 0) (0, 1) 0).getD 0 (0, 0) =
      (0 + (14 - 0) * ((((0 : ℕ) : ℚ) + 1) / ((springCoils 0 : ℤ) : ℚ)) +
        0 * (if (0 + 1) % 2 = 0 then (1 : ℚ) else -1) * 4,
       0 + (0 - 0) * ((((0 : ℕ) : ℚ) + 1) / ((springCoils 0 : ℤ) : ℚ)) +
        1 * (if (0 + 1) % 2 = 0 then (1 : ℚ) else -1) * 4) :=
  spring_coil_count 0 (0, 0) (14, 0) (0, 1) 0
    (Nat.lt_of_lt_of_le (by decide)
      (Nat.sub_le_sub_right (springCoils_twelve_le 0) 1))

end MatterWorld
